import Mathlib

/-!
Verification of the LiveCC evaluation-harness scripts
(`evaluation/livesports3kcc/distributed_generate_livecc.py` and
`evaluation/mvbench/check_video_exists.py`) against their specification.

The Python code is shallowly embedded: pure string manipulation is
translated to executable Lean functions on `String`/`List Char`, the
per-worker file-writing loop to explicit state passing over an
association list of files, and fallible operations (JSON parsing,
`dict` subscripts, exceptions) to `Option`/`PyRes` values.
-/

/-! ## Python string primitives -/

/-- Whitespace characters stripped by Python `str.strip()` (ASCII subset,
which covers all strings appearing in this code base). -/
def isPySpace (c : Char) : Bool :=
  c = ' ' || c = '\t' || c = '\n' || c = '\r' || c = '\x0b' || c = '\x0c'

/-- Python `s.strip()`: remove leading and trailing whitespace. -/
def pyStrip (s : String) : String :=
  ⟨((s.data.dropWhile isPySpace).reverse.dropWhile isPySpace).reverse⟩

/-- Fuel-driven core of Python `str.replace`: replace every
(left-to-right, non-overlapping) occurrence of `pat` by `rep`.
The fuel is an upper bound on the number of characters examined;
`pyReplace` supplies enough fuel for the whole input. -/
def replAux (pat rep : List Char) : Nat → List Char → List Char
  | _, [] => []
  | 0, l => l
  | f + 1, c :: rest =>
    if pat.isPrefixOf (c :: rest) then
      rep ++ replAux pat rep f ((c :: rest).drop pat.length)
    else
      c :: replAux pat rep f rest

/-- Python `s.replace(pat, rep)` (for the non-empty patterns used here). -/
def pyReplace (s pat rep : String) : String :=
  ⟨replAux pat.data rep.data s.data.length s.data⟩

/-- Python `sep.join(xs)`. -/
def joinSep (sep : String) : List String → String
  | [] => ""
  | [x] => x
  | x :: y :: xs => x ++ sep ++ joinSep sep (y :: xs)

/-- Substring occurrence test on character lists: does `needle` occur
contiguously in the haystack?  (Python `needle in hay` on strings.) -/
def substrAt (needle : List Char) : List Char → Bool
  | [] => needle.isEmpty
  | c :: rest => needle.isPrefixOf (c :: rest) || substrAt needle rest

/-! ## Python extended slicing `l[start::step]` -/

/-- Fuel-driven stride: keep the head, then skip `step - 1` elements,
repeat.  With fuel at least the list length this is every `step`-th
element of the list. -/
def sliceStepAux {α : Type} (step : Nat) : Nat → List α → List α
  | _, [] => []
  | 0, _ :: _ => []
  | f + 1, c :: rest => c :: sliceStepAux step f (rest.drop (step - 1))

/-- Python `l[start::step]` for `step ≥ 1`. -/
def pySlice {α : Type} (l : List α) (start step : Nat) : List α :=
  sliceStepAux step l.length (l.drop start)

/-- The shard of dataset indices taken by one worker:
`idxs = list(range(n)); idxs_on_device = idxs[device_id::num_workers]`
from `livecc_worker`. -/
def idxs_on_device (n num_workers device_id : Nat) : List Nat :=
  pySlice (List.range n) device_id num_workers

/-! ## Caption post-processing (`livecc_worker`, overall_cc) -/

/-- The post-processing of the inference responses in `livecc_worker`:
`' '.join(cc.replace(' ...', '') for _, _, cc in responses if cc).strip() + '...'`. -/
def overallCC (responses : List (String × String × String)) : String :=
  pyStrip (joinSep " "
    (((responses.map (fun r => r.2.2)).filter (fun cc => cc ≠ "")).map
      (fun cc => pyReplace cc " ..." ""))) ++ "..."

/-! ## Prompt construction (`livecc_worker`) -/

/-- The fixed commentator preamble (the two adjacent Python string
literals concatenate to this single string). -/
def commentaryPrompt : String :=
  "You are an expert video commentator providing real-time, insightful, and engaging commentary on visual content.\n"

/-- Prompt construction from `livecc_worker`.  In the `simple_ctx` branch
the code is `title = '' if preasr else title` followed by
`f'{title}\n{preasr}'.strip()`; otherwise the preamble plus the optional
title sentence plus the optional previous-commentary block. -/
def buildPrompt (simple_ctx : Bool) (title preasr : String) : String :=
  if simple_ctx then
    let t := if preasr ≠ "" then "" else title
    pyStrip (t ++ "\n" ++ preasr)
  else
    let p1 := commentaryPrompt
    let p2 := if title ≠ "" then p1 ++ "This is a video titled \"" ++ title ++ "\".\n" else p1
    let p3 := if preasr ≠ "" then
        p2 ++ "Here is previous commentary of the video:\n\n" ++ preasr ++ "\n\n"
           ++ "Please continue to comment the video."
      else p2
    p3

/-- The instruct-mode prompt as the specification words it: the fixed
preamble, then the title phrase if the title is non-empty, then the
previous-commentary phrase if the preasr is non-empty. -/
def specPromptInstruct (title preasr : String) : String :=
  commentaryPrompt
    ++ (if title ≠ "" then "This is a video titled \"" ++ title ++ "\".\n" else "")
    ++ (if preasr ≠ "" then
          "Here is previous commentary of the video:\n\n" ++ preasr ++ "\n\n"
            ++ "Please continue to comment the video."
        else "")

example : overallCC [("", "", "a ..."), ("", "", "b")] = "a b..." := by decide
example : pyReplace "a ... b" " ..." "" = "a b" := by decide
example : idxs_on_device 5 2 0 = [0, 2, 4] := by decide
example : idxs_on_device 5 2 1 = [1, 3] := by decide
example : buildPrompt true "T" " hi " = "hi" := by decide

/-! ## JSON values (model of the Python `json` module, ASCII subset)

The scripts use `json.loads`/`json.load` and `json.dumps`/`json.dump`
from the standard library.  We model JSON values over integers (the
numeric literals occurring in this code base), strings without escape
sequences, booleans, null, arrays and objects; `dumps` serializes with
Python's default separators `", "` and `": "`. -/

mutual
/-- A JSON value. -/
inductive Json where
  | jnull : Json
  | jbool : Bool → Json
  | jnum : Int → Json
  | jstr : String → Json
  | jarr : JsonList → Json
  | jobj : JsonObj → Json

/-- The elements of a JSON array. -/
inductive JsonList where
  | nil : JsonList
  | cons : Json → JsonList → JsonList

/-- The members of a JSON object, in document order. -/
inductive JsonObj where
  | onil : JsonObj
  | ocons : String → Json → JsonObj → JsonObj
end

/-- Characters escaped by `json.dumps` in the ASCII subset modelled here. -/
def escapeChar (c : Char) : List Char :=
  if c = '"' then ['\\', '"'] else if c = '\\' then ['\\', '\\'] else [c]

/-- Serialization of a JSON string literal, quotes included. -/
def jquote (s : String) : String :=
  ⟨'"' :: (s.data.map escapeChar).flatten ++ ['"']⟩

mutual
/-- Python `json.dumps` with the default separators `", "` and `": "`. -/
def dumps : Json → String
  | .jnull => "null"
  | .jbool true => "true"
  | .jbool false => "false"
  | .jnum n => toString n
  | .jstr s => jquote s
  | .jarr xs => "[" ++ joinSep ", " (dumpsList xs) ++ "]"
  | .jobj kvs => "\x7b" ++ joinSep ", " (dumpsObj kvs) ++ "\x7d"

/-- Serialization of the elements of a JSON array. -/
def dumpsList : JsonList → List String
  | .nil => []
  | .cons x xs => dumps x :: dumpsList xs

/-- Serialization of the members of a JSON object. -/
def dumpsObj : JsonObj → List String
  | .onil => []
  | .ocons k v kvs => (jquote k ++ ": " ++ dumps v) :: dumpsObj kvs
end

/-- JSON whitespace. -/
def isJsonWs (c : Char) : Bool :=
  c = ' ' || c = '\t' || c = '\n' || c = '\r'

/-- Skip JSON whitespace. -/
def skipWs (cs : List Char) : List Char := cs.dropWhile isJsonWs

/-- Scan the characters of a JSON string literal up to the closing quote
(escape sequences are outside the modelled subset). -/
def scanStr : List Char → Option (List Char × List Char)
  | [] => none
  | c :: rest =>
    if c = '"' then some ([], rest)
    else if c = '\\' then none
    else (scanStr rest).map (fun p => (c :: p.1, p.2))

/-- Decimal digit test. -/
def isDig (c : Char) : Bool := '0' ≤ c && c ≤ '9'

/-- Split a leading run of decimal digits off a character list. -/
def takeDigits : List Char → List Char × List Char
  | [] => ([], [])
  | c :: rest =>
    if isDig c then
      let p := takeDigits rest
      (c :: p.1, p.2)
    else ([], c :: rest)

/-- Numeric value of a digit run. -/
def digitsVal (ds : List Char) : Nat :=
  ds.foldl (fun a c => a * 10 + (c.toNat - 48)) 0

/-- Fuel-driven recursive-descent JSON parser.  `mode = 0` parses one
value; `mode = 1` parses the remaining elements of a non-empty array
(after `[` and leading whitespace) and returns them as `.jarr`;
`mode = 2` parses the remaining members of a non-empty object and
returns them as `.jobj`.  Returns the value and the unconsumed input. -/
def parseF : Nat → Nat → List Char → Option (Json × List Char)
  | 0, _, _ => none
  | f + 1, 0, cs =>
    match skipWs cs with
    | [] => none
    | c :: rest =>
      if c = '"' then (scanStr rest).map (fun p => (Json.jstr ⟨p.1⟩, p.2))
      else if c = '\x7b' then
        match skipWs rest with
        | '\x7d' :: rest2 => some (Json.jobj .onil, rest2)
        | rest2 => parseF f 2 rest2
      else if c = '[' then
        match skipWs rest with
        | ']' :: rest2 => some (Json.jarr .nil, rest2)
        | rest2 => parseF f 1 rest2
      else if c = 't' then
        match rest with
        | 'r' :: 'u' :: 'e' :: r => some (Json.jbool true, r)
        | _ => none
      else if c = 'f' then
        match rest with
        | 'a' :: 'l' :: 's' :: 'e' :: r => some (Json.jbool false, r)
        | _ => none
      else if c = 'n' then
        match rest with
        | 'u' :: 'l' :: 'l' :: r => some (Json.jnull, r)
        | _ => none
      else if c = '-' then
        match takeDigits rest with
        | ([], _) => none
        | (ds, r) => some (Json.jnum (-(digitsVal ds : Int)), r)
      else if isDig c then
        let p := takeDigits (c :: rest)
        some (Json.jnum (digitsVal p.1 : Int), p.2)
      else none
  | f + 1, 1, cs =>
    match parseF f 0 cs with
    | none => none
    | some (v, rest) =>
      match skipWs rest with
      | ',' :: rest2 =>
        match parseF f 1 rest2 with
        | some (Json.jarr vs, rest3) => some (Json.jarr (.cons v vs), rest3)
        | _ => none
      | ']' :: rest2 => some (Json.jarr (.cons v .nil), rest2)
      | _ => none
  | f + 1, _, cs =>
    match skipWs cs with
    | '"' :: rest =>
      match scanStr rest with
      | none => none
      | some (k, rest2) =>
        match skipWs rest2 with
        | ':' :: rest3 =>
          match parseF f 0 rest3 with
          | none => none
          | some (v, rest4) =>
            match skipWs rest4 with
            | ',' :: rest5 =>
              match parseF f 2 rest5 with
              | some (Json.jobj kvs, rest6) => some (Json.jobj (.ocons ⟨k⟩ v kvs), rest6)
              | _ => none
            | '\x7d' :: rest5 => some (Json.jobj (.ocons ⟨k⟩ v .onil), rest5)
            | _ => none
        | _ => none
    | _ => none

/-- Python `json.loads` on a whole string (the modelled subset):
parse one value and require only whitespace after it.  The fuel bound
`2 * length + 2` dominates the recursion depth of any parse. -/
def parseJson (s : String) : Option Json :=
  match parseF (2 * s.data.length + 2) 0 s.data with
  | some (j, rest) => if skipWs rest = [] then some j else none
  | none => none

example : parseJson "\x7b\"a\": 1\x7d" =
    some (Json.jobj (.ocons "a" (Json.jnum 1) .onil)) := rfl
example : parseJson " \x7b\"a\":[1,true,null],\"b\":\"x\"\x7d " =
    some (Json.jobj (.ocons "a"
      (Json.jarr (.cons (Json.jnum 1) (.cons (Json.jbool true) (.cons Json.jnull .nil))))
      (.ocons "b" (Json.jstr "x") .onil))) := rfl
example : parseJson "\x7b\"a\":1" = none := rfl
example : parseJson "[-3, \x7b\x7d]" =
    some (Json.jarr (.cons (Json.jnum (-3)) (.cons (Json.jobj .onil) .nil))) := rfl
example : dumps (Json.jobj (.ocons "a" (Json.jnum 1) .onil)) = "\x7b\"a\": 1\x7d" := rfl
example : dumps (Json.jobj (.ocons "a"
    (Json.jarr (.cons (Json.jnum (-2)) (.cons (Json.jstr "x") .nil))) .onil)) =
    "\x7b\"a\": [-2, \"x\"]\x7d" := rfl

/-! ## The existence filter (`evaluation/mvbench/check_video_exists.py`) -/

/-- Result of running a piece of Python code: a normal value, or an
uncaught exception (tagged with its kind). -/
inductive PyRes (α : Type) where
  | ok : α → PyRes α
  | exn : String → PyRes α
deriving DecidableEq, Repr

/-- Lookup of a key in a JSON object (first occurrence; the inputs in
this code base have no duplicate keys). -/
def lookupKey (k : String) : JsonObj → Option Json
  | .onil => none
  | .ocons k2 v rest => if k2 = k then some v else lookupKey k rest

/-- Python subscript `datum[k]` on a parsed JSON value: a lookup on a
dict, `KeyError` when the key is absent, `TypeError` on non-dicts
(string subscripts on lists/strings/numbers raise `TypeError`). -/
def getItem (j : Json) (k : String) : PyRes Json :=
  match j with
  | .jobj kvs =>
    match lookupKey k kvs with
    | some v => .ok v
    | none => .exn ("KeyError: " ++ k)
  | _ => .exn "TypeError"

/-- Python membership elements test for a JSON array (`x in list` uses
`==`, which is `False` between a string and a non-string). -/
def jarrHasStr (needle : String) : JsonList → Bool
  | .nil => false
  | .cons x xs =>
    (match x with
     | .jstr s => s = needle
     | _ => false) || jarrHasStr needle xs

/-- Membership keys test for a JSON object (`x in dict` tests keys). -/
def jobjHasKey (needle : String) : JsonObj → Bool
  | .onil => false
  | .ocons k _ rest => k = needle || jobjHasKey needle rest

/-- Python `needle in v` for a JSON value `v`: substring test on a
string, element test on a list, key test on a dict, `TypeError` on
values that are not containers. -/
def pyIn (needle : String) : Json → PyRes Bool
  | .jstr s => .ok (substrAt needle.data s.data)
  | .jarr xs => .ok (jarrHasStr needle xs)
  | .jobj kvs => .ok (jobjHasKey needle kvs)
  | _ => .exn "TypeError"

/-- The `check` function of `check_video_exists.py`:

```
def check(line):
    datum = json.loads(line)
    if 'tvqa' in datum['video']:
        return line
    try:
        datum['video']
        return line
    except:
        print(datum['video'], 'not exists')
```

`datum['video']` in the `if` condition is evaluated before the `try`
block is entered, so a missing key raises there, uncaught.  The value
`.ok none` models falling through the `except` branch (print, implicit
`return None`); `.ok (some line)` models `return line`. -/
def check (line : String) : PyRes (Option String) :=
  match parseJson line with
  | none => .exn "JSONDecodeError"
  | some datum =>
    match datum with
    | .jobj kvs =>
      match lookupKey "video" kvs with
      | none => .exn "KeyError: video"
      | some v =>
        match pyIn "tvqa" v with
        | .exn e => .exn e
        | .ok true => .ok (some line)
        | .ok false =>
          match lookupKey "video" kvs with
          | some _ => .ok (some line)
          | none => .ok none
    | _ => .exn "TypeError"

/-- Modelled from the spec: `local_mt` from `utils.multiprocessor` is
not under `src/`; per the specification it is an order-preserving
parallel map over independent per-line work, so it is modelled as a
map in which an exception raised by the mapped function propagates. -/
def local_mt (f : String → PyRes (Option String)) : List String → PyRes (List (Option String))
  | [] => .ok []
  | l :: ls =>
    match f l with
    | .exn e => .exn e
    | .ok r =>
      match local_mt f ls with
      | .exn e => .exn e
      | .ok rs => .ok (r :: rs)

/-- The module-level pipeline of `check_video_exists.py`: map `check`
over the input lines, keep the non-`None` results, in order.  The
returned list is what `f.writelines` writes to the output file. -/
def filterPipeline (lines : List String) : PyRes (List String) :=
  match local_mt check lines with
  | .exn e => .exn e
  | .ok results => .ok (results.filterMap id)

/-! ## The per-worker generation loop (`livecc_worker`) -/

/-- Lookup in the model of the save directory: an association list from
index `idx` (standing for the file name `<save_dir>/<idx>.json`) to the
file's content. -/
def lookupFile : List (Nat × String) → Nat → Option String
  | [], _ => none
  | (k, v) :: rest, p => if k = p then some v else lookupFile rest p

/-- The per-index loop of `livecc_worker`: for each assigned index,
skip it when `os.path.exists(save_path)`, otherwise run inference and
write the result file.  `process idx` stands for the external inference
call plus `json.dump` for index `idx`; the returned pair is the final
directory contents and the list of indices actually processed (each of
which incurred one inference call and one write). -/
def runWorker (process : Nat → String) (fs : List (Nat × String)) :
    List Nat → List (Nat × String) × List Nat
  | [] => (fs, [])
  | idx :: rest =>
    if (lookupFile fs idx).isSome then
      runWorker process fs rest
    else
      let r := runWorker process ((idx, process idx) :: fs) rest
      (r.1, idx :: r.2)

/-! ## Aggregation (`__main__` of `distributed_generate_livecc.py`) -/

/-- The jsons → jsonl aggregation block: for every file of the shard
directory (in `os.listdir` order, here the order of the input list),
`json.load` it and write `json.dumps(datum) + '\n'` to the merged file;
afterwards `shutil.rmtree(save_dir)`.  The result is the list of lines
of the merged JSONL file (without their trailing newlines) paired with
whether the `rmtree` was reached: a `json.load` failure raises, leaving
the lines written so far and the directory in place. -/
def aggregate : List (String × String) → List String × Bool
  | [] => ([], true)
  | f :: rest =>
    match parseJson f.2 with
    | none => ([], false)
    | some j =>
      let r := aggregate rest
      (dumps j :: r.1, r.2)

/-! ## CLI argument resolution (`parse_args`) -/

/-- The resolved arguments, one field per `add_argument` call.
`repetition_penalty` is modelled as a rational number; no arithmetic is
performed on it anywhere in the script. -/
structure Args where
  model_name_or_path : String
  not_instruct_model : Bool
  num_workers : Int
  repetition_penalty : ℚ
  output_dir : String
deriving DecidableEq, Repr

/-- A command line, as the optionally-provided value of each option
(`none` = the flag was not passed; `not_instruct_model` is a
`store_true` flag, so it is simply present or absent). -/
structure Cli where
  model_name_or_path : Option String := none
  not_instruct_model_flag : Bool := false
  num_workers : Option Int := none
  repetition_penalty : Option ℚ := none
  output_dir : Option String := none
deriving DecidableEq, Repr

/-- The `parse_args` function: `--model_name_or_path` is required
(argparse exits when it is absent), every other option falls back to
its declared default, and no validation happens beyond type coercion
(which is part of reading the `Cli` fields). -/
def parse_args (c : Cli) : PyRes Args :=
  match c.model_name_or_path with
  | none => .exn "argparse: the following arguments are required: --model_name_or_path"
  | some m =>
    .ok { model_name_or_path := m,
          not_instruct_model := c.not_instruct_model_flag,
          num_workers := c.num_workers.getD 8,
          repetition_penalty := c.repetition_penalty.getD 1.15,
          output_dir := c.output_dir.getD "evaluation/livesports3kcc/livecc" }

example : check "\x7b\"id\": 3\x7d" = .exn "KeyError: video" := rfl
example : check "\x7b\"video\": \"a/v1.mp4\"\x7d" = .ok (some "\x7b\"video\": \"a/v1.mp4\"\x7d") := rfl
example : check "\x7b\"video\": \"x/tvqa/v.mp4\"\x7d" = .ok (some "\x7b\"video\": \"x/tvqa/v.mp4\"\x7d") := rfl
example : check "\x7b\"video\": 5\x7d" = .exn "TypeError" := rfl
example : filterPipeline ["\x7b\"video\": \"a.mp4\"\x7d\n", "\x7b\"id\": 3\x7d\n"] =
    .exn "KeyError: video" := rfl
example : aggregate [("0.json", "\x7b\"a\": 1\x7d"), ("1.json", "\x7b\"b\": 2\x7d")] =
    (["\x7b\"a\": 1\x7d", "\x7b\"b\": 2\x7d"], true) := rfl
example : aggregate [("0.json", "\x7b\"a\":1\x7d")] = (["\x7b\"a\": 1\x7d"], true) := rfl
example : parse_args {} = .exn "argparse: the following arguments are required: --model_name_or_path" := rfl
example : parse_args { model_name_or_path := some "m" } =
    .ok { model_name_or_path := "m", not_instruct_model := false, num_workers := 8,
          repetition_penalty := 1.15, output_dir := "evaluation/livesports3kcc/livecc" } := rfl

/-! ## Supporting lemmas -/

/-- Membership in the fuel-driven stride: exactly the elements found at
positions that are multiples of `step`. -/
lemma mem_sliceStepAux {α : Type} (step : Nat) (hstep : 0 < step) :
    ∀ (f : Nat) (l : List α), l.length ≤ f →
      ∀ x, x ∈ sliceStepAux step f l ↔ ∃ k, l[k * step]? = some x := by
  intro f
  induction f with
  | zero =>
    intro l hl x
    match l with
    | [] => simp [sliceStepAux]
  | succ f ih =>
    intro l hl x
    match l with
    | [] => simp [sliceStepAux]
    | c :: rest =>
      have hlen : (rest.drop (step - 1)).length ≤ f := by
        simp only [List.length_drop]
        simp only [List.length_cons] at hl
        omega
      simp only [sliceStepAux, List.mem_cons]
      constructor
      · rintro (rfl | hmem)
        · exact ⟨0, by simp⟩
        · obtain ⟨k, hk⟩ := (ih _ hlen x).mp hmem
          refine ⟨k + 1, ?_⟩
          rw [List.getElem?_drop] at hk
          have hmul : (k + 1) * step = k * step + step := Nat.succ_mul k step
          have hidx : (k + 1) * step = (step - 1 + k * step) + 1 := by omega
          rw [hidx, List.getElem?_cons_succ]
          exact hk
      · rintro ⟨k, hk⟩
        match k with
        | 0 =>
          simp only [Nat.zero_mul, List.getElem?_cons_zero, Option.some.injEq] at hk
          exact Or.inl hk.symm
        | k + 1 =>
          right
          refine (ih _ hlen x).mpr ⟨k, ?_⟩
          rw [List.getElem?_drop]
          have hmul : (k + 1) * step = k * step + step := Nat.succ_mul k step
          have hidx : (k + 1) * step = (step - 1 + k * step) + 1 := by omega
          rw [hidx, List.getElem?_cons_succ] at hk
          exact hk

/-- Characterization of a worker's shard: exactly the indices below `n`
congruent to `device_id` modulo `num_workers`. -/
lemma mem_idxs_on_device (n w d : Nat) (hw : 0 < w) (hd : d < w) (i : Nat) :
    i ∈ idxs_on_device n w d ↔ i < n ∧ i % w = d := by
  unfold idxs_on_device pySlice
  rw [mem_sliceStepAux w hw _ _ (by simp [List.length_drop, List.length_range])]
  constructor
  · rintro ⟨k, hk⟩
    rw [List.getElem?_drop] at hk
    by_cases hlt : d + k * w < n
    · rw [List.getElem?_range hlt] at hk
      obtain rfl : d + k * w = i := Option.some.injEq _ _ ▸ hk |> Option.some.inj
      refine ⟨hlt, ?_⟩
      rw [Nat.add_mul_mod_self_right]
      exact Nat.mod_eq_of_lt hd
    · rw [List.getElem?_eq_none (by simp [List.length_range]; omega)] at hk
      exact absurd hk (by simp)
  · rintro ⟨hin, hmod⟩
    refine ⟨i / w, ?_⟩
    rw [List.getElem?_drop]
    have hdm : w * (i / w) + i % w = i := Nat.div_add_mod i w
    have hcomm : w * (i / w) = (i / w) * w := Nat.mul_comm _ _
    have : d + i / w * w = i := by omega
    rw [this, List.getElem?_range hin]

/-! ## Claim theorems -/

/-- C1: for every dataset size `n` and worker count `w > 0`, the shards
`idxs[d::w]` for `d ∈ [0, w)` are pairwise disjoint, and their union is
the full index set `{0, …, n-1}`. -/
theorem shard_partition (n w : Nat) (hw : 0 < w) :
    (∀ d1 d2, d1 < w → d2 < w → d1 ≠ d2 →
        ∀ i, i ∈ idxs_on_device n w d1 → i ∉ idxs_on_device n w d2) ∧
    (∀ i, i < n ↔ ∃ d, d < w ∧ i ∈ idxs_on_device n w d) := by
  constructor
  · intro d1 d2 h1 h2 hne i hi1 hi2
    rw [mem_idxs_on_device n w d1 hw h1] at hi1
    rw [mem_idxs_on_device n w d2 hw h2] at hi2
    exact hne (hi1.2.symm.trans hi2.2)
  · intro i
    constructor
    · intro hin
      have hmod : i % w < w := Nat.mod_lt i hw
      exact ⟨i % w, hmod, (mem_idxs_on_device n w _ hw hmod i).mpr ⟨hin, rfl⟩⟩
    · rintro ⟨d, hd, hmem⟩
      exact ((mem_idxs_on_device n w d hw hd i).mp hmem).1

/-- Witness for C1 at `n = 5`, `w = 2`. -/
theorem shard_partition_witness :
    0 < 2 ∧
    ((∀ d1 d2, d1 < 2 → d2 < 2 → d1 ≠ d2 →
        ∀ i, i ∈ idxs_on_device 5 2 d1 → i ∉ idxs_on_device 5 2 d2) ∧
     (∀ i, i < 5 ↔ ∃ d, d < 2 ∧ i ∈ idxs_on_device 5 2 d)) :=
  ⟨by decide, shard_partition 5 2 (by decide)⟩

/-- C3: the caption post-processing strips the ellipsis marker from each
fragment, drops empty fragments, joins with single spaces and appends
one trailing ellipsis; on `[("", "", "a ..."), ("", "", "b")]` it yields
exactly `"a b..."`. -/
theorem caption_concat_example :
    overallCC [("", "", "a ..."), ("", "", "b")] = "a b..." := by decide

/-- C10: the per-fragment stripping removes every occurrence of the
four-character substring `" ..."` anywhere in the text (not only a
trailing marker) and leaves an ellipsis that is not preceded by a space
in place; every produced `pred` ends in `"..."`, and when every fragment
is empty the `pred` is exactly `"..."`. -/
theorem ellipsis_replace_behavior (rs : List (String × String × String))
    (h : ∀ x ∈ rs, x.2.2 = "") :
    pyReplace "a..." " ..." "" = "a..." ∧
    pyReplace "a ... b" " ..." "" = "a b" ∧
    pyReplace "x ... y ... z" " ..." "" = "x y z" ∧
    (∀ rs2 : List (String × String × String), ∃ t, overallCC rs2 = t ++ "...") ∧
    overallCC rs = "..." := by
  refine ⟨by decide, by decide, by decide, fun rs2 => ⟨_, rfl⟩, ?_⟩
  have hnil : (rs.map (fun r => r.2.2)).filter (fun cc => cc ≠ "") = [] := by
    rw [List.filter_eq_nil_iff]
    intro a ha
    obtain ⟨x, hx, rfl⟩ := List.mem_map.mp ha
    simp [h x hx]
  simp only [overallCC, hnil]
  decide

/-- Witness for C10 at a list of two empty fragments. -/
theorem ellipsis_replace_behavior_witness :
    (∀ x ∈ ([("", "", ""), ("x", "y", "")] : List (String × String × String)), x.2.2 = "") ∧
    (pyReplace "a..." " ..." "" = "a..." ∧
     pyReplace "a ... b" " ..." "" = "a b" ∧
     pyReplace "x ... y ... z" " ..." "" = "x y z" ∧
     (∀ rs2 : List (String × String × String), ∃ t, overallCC rs2 = t ++ "...") ∧
     overallCC [("", "", ""), ("x", "y", "")] = "...") :=
  ⟨by decide, ellipsis_replace_behavior [("", "", ""), ("x", "y", "")] (by decide)⟩

/-- Stripping is unaffected by a leading whitespace character. -/
lemma pyStrip_cons_ws (c : Char) (hc : isPySpace c = true) (s : String) :
    pyStrip ⟨c :: s.data⟩ = pyStrip s := by
  simp [pyStrip, List.dropWhile_cons, hc]

/-- C4: with `simple_ctx=True` and non-empty `preasr` the title is
forced empty and the prompt equals `preasr.strip()`; with
`simple_ctx=False` the prompt is the fixed commentator preamble with
the title sentence (if the title is non-empty) and the
previous-commentary block (if `preasr` is non-empty) appended in their
fixed phrasing. -/
theorem prompt_construction (title preasr : String) :
    (preasr ≠ "" → buildPrompt true title preasr = pyStrip preasr) ∧
    buildPrompt false title preasr = specPromptInstruct title preasr := by
  constructor
  · intro h
    show pyStrip ((if preasr ≠ "" then "" else title) ++ "\n" ++ preasr) = pyStrip preasr
    rw [if_pos h]
    have heq : ("" ++ "\n" ++ preasr : String) = ⟨'\n' :: preasr.data⟩ := by
      apply String.ext
      simp [String.data_append]
    rw [heq, pyStrip_cons_ws '\n' (by decide) preasr]
  · have m1 : ∀ x : String,
        "\".\n" ++ ("Here is previous commentary of the video:\n\n" ++ x)
          = "\".\nHere is previous commentary of the video:\n\n" ++ x := by
      intro x
      rw [← String.append_assoc]
      exact congrArg (fun s => s ++ x) (by decide)
    by_cases ht : title = "" <;> by_cases hp : preasr = "" <;>
      simp [buildPrompt, specPromptInstruct, ht, hp, String.append_assoc, m1]

/-- Witness for C4 at `title = "T"`, `preasr = " hi "`. -/
theorem prompt_construction_witness :
    buildPrompt true "T" " hi " = pyStrip " hi " ∧
    buildPrompt false "T" " hi " = specPromptInstruct "T" " hi " :=
  ⟨(prompt_construction "T" " hi ").1 (by decide), (prompt_construction "T" " hi ").2⟩

/-- C5: if the output file for an index exists before the run, the
worker neither reprocesses that index (no inference call, no write)
nor changes the file's content. -/
theorem resume_idempotence (process : Nat → String) (fs : List (Nat × String))
    (l : List Nat) (idx : Nat) (c : String) (h : lookupFile fs idx = some c) :
    lookupFile (runWorker process fs l).1 idx = some c ∧
    idx ∉ (runWorker process fs l).2 := by
  induction l generalizing fs with
  | nil => simpa [runWorker] using h
  | cons i rest ih =>
    by_cases hi : (lookupFile fs i).isSome = true
    · simpa [runWorker, hi] using ih fs h
    · have hne : i ≠ idx := by
        rintro rfl
        rw [h] at hi
        simp at hi
      have h2 : lookupFile ((i, process i) :: fs) idx = some c := by
        simp [lookupFile, hne, h]
      have hrec := ih ((i, process i) :: fs) h2
      have hrw : runWorker process fs (i :: rest) =
          ((runWorker process ((i, process i) :: fs) rest).1,
            i :: (runWorker process ((i, process i) :: fs) rest).2) := by
        simp [runWorker, hi]
      rw [hrw]
      refine ⟨hrec.1, ?_⟩
      intro hmem
      rcases List.mem_cons.mp hmem with heq | hmem2
      · exact hne heq.symm
      · exact hrec.2 hmem2

/-- Witness for C5: index 0 is already on disk; running the worker over
`[0, 1]` keeps its content and processes only index 1. -/
theorem resume_idempotence_witness :
    lookupFile [(0, "done")] 0 = some "done" ∧
    (lookupFile (runWorker (fun _ => "out") [(0, "done")] [0, 1]).1 0 = some "done" ∧
     0 ∉ (runWorker (fun _ => "out") [(0, "done")] [0, 1]).2) :=
  ⟨by decide, resume_idempotence (fun _ => "out") [(0, "done")] [0, 1] 0 "done" (by decide)⟩

/-- C8: `--model_name_or_path` is required (parsing fails without it);
`--not_instruct_model` is a boolean flag; `--num_workers` defaults to 8;
`--repetition_penalty` defaults to 1.15; `--output_dir` defaults to the
fixed path; any provided values are accepted with no validation beyond
type coercion. -/
theorem cli_resolution :
    (∀ c : Cli, c.model_name_or_path = none →
        parse_args c =
          PyRes.exn "argparse: the following arguments are required: --model_name_or_path") ∧
    (∀ m, parse_args { model_name_or_path := some m } =
        PyRes.ok { model_name_or_path := m, not_instruct_model := false, num_workers := 8,
                   repetition_penalty := 1.15,
                   output_dir := "evaluation/livesports3kcc/livecc" }) ∧
    (∀ m b nw rp od,
        parse_args { model_name_or_path := some m, not_instruct_model_flag := b,
                     num_workers := some nw, repetition_penalty := some rp,
                     output_dir := some od } =
        PyRes.ok { model_name_or_path := m, not_instruct_model := b, num_workers := nw,
                   repetition_penalty := rp, output_dir := od }) := by
  refine ⟨?_, fun m => rfl, fun m b nw rp od => rfl⟩
  intro c hc
  simp [parse_args, hc]

/-- Witness for C8: an empty command line is rejected; providing only
the model path yields all documented defaults. -/
theorem cli_resolution_witness :
    ({} : Cli).model_name_or_path = none ∧
    parse_args {} =
      PyRes.exn "argparse: the following arguments are required: --model_name_or_path" ∧
    parse_args { model_name_or_path := some "chenjoya/LiveCC-7B-Instruct" } =
      PyRes.ok { model_name_or_path := "chenjoya/LiveCC-7B-Instruct",
                 not_instruct_model := false, num_workers := 8,
                 repetition_penalty := 1.15,
                 output_dir := "evaluation/livesports3kcc/livecc" } :=
  ⟨rfl, cli_resolution.1 {} rfl, cli_resolution.2.1 "chenjoya/LiveCC-7B-Instruct"⟩

/-- C2: at the input line `{"id": 3}` — valid JSON with no `video`
key — `check` raises an uncaught `KeyError` from the membership-test
line (evaluated before the `try` block), rather than catching the
error, logging it, and returning `None` as the specification claims. -/
theorem check_missing_video_raises :
    check "\x7b\"id\": 3\x7d" = PyRes.exn "KeyError: video" := rfl

/-- C7: on an input whose second line lacks the `video` key, the filter
pipeline raises an uncaught `KeyError` (no output is written) instead
of writing one fewer line; on an input whose lines all carry a string
`video` value, no line is ever dropped. -/
theorem filter_pipeline_failing :
    filterPipeline ["\x7b\"video\": \"a.mp4\"\x7d\n", "\x7b\"id\": 3\x7d\n"] =
      PyRes.exn "KeyError: video" ∧
    filterPipeline ["\x7b\"video\": \"a.mp4\"\x7d\n", "\x7b\"video\": \"b.mp4\"\x7d\n"] =
      PyRes.ok ["\x7b\"video\": \"a.mp4\"\x7d\n", "\x7b\"video\": \"b.mp4\"\x7d\n"] :=
  ⟨rfl, rfl⟩

/-- C9 counterexample: the line `{"video": 5}` has a `video` key, yet
`check` does not return the line — the membership test
`'tvqa' in datum['video']` raises `TypeError` on the integer value. -/
theorem check_video_key_not_returned :
    parseJson "\x7b\"video\": 5\x7d" =
      some (Json.jobj (.ocons "video" (Json.jnum 5) .onil)) ∧
    check "\x7b\"video\": 5\x7d" ≠ PyRes.ok (some "\x7b\"video\": 5\x7d") ∧
    check "\x7b\"video\": 5\x7d" = PyRes.exn "TypeError" :=
  ⟨rfl, by decide, rfl⟩

/-- C9 (amended): `check` never returns `None` — its `except` branch is
unreachable; when the parsed object carries a `video` key with a string
value the line is returned unchanged, and when the key is missing the
`KeyError` is raised by the membership test before the `try` block. -/
theorem check_never_none :
    (∀ line, check line ≠ PyRes.ok none) ∧
    (∀ line kvs s, parseJson line = some (Json.jobj kvs) →
        lookupKey "video" kvs = some (Json.jstr s) →
        check line = PyRes.ok (some line)) ∧
    (∀ line kvs, parseJson line = some (Json.jobj kvs) →
        lookupKey "video" kvs = none →
        check line = PyRes.exn "KeyError: video") := by
  refine ⟨?_, ?_, ?_⟩
  · intro line hcontra
    cases hp : parseJson line with
    | none => simp [check, hp] at hcontra
    | some datum =>
      cases datum with
      | jobj kvs =>
        cases hl : lookupKey "video" kvs with
        | none => simp [check, hp, hl] at hcontra
        | some v =>
          cases hin : pyIn "tvqa" v with
          | exn e => simp [check, hp, hl, hin] at hcontra
          | ok b =>
            cases b with
            | true => simp [check, hp, hl, hin] at hcontra
            | false => simp [check, hp, hl, hin] at hcontra
      | jnull => simp [check, hp] at hcontra
      | jbool b => simp [check, hp] at hcontra
      | jnum n => simp [check, hp] at hcontra
      | jstr s => simp [check, hp] at hcontra
      | jarr xs => simp [check, hp] at hcontra
  · intro line kvs s hp hl
    cases hb : substrAt "tvqa".data s.data with
    | true => simp [check, hp, hl, pyIn, hb]
    | false => simp [check, hp, hl, pyIn, hb]
  · intro line kvs hp hl
    simp [check, hp, hl]

/-- Witness for C9 (amended) at concrete lines with a string-valued
`video` key, a missing key, and an arbitrary line. -/
theorem check_never_none_witness :
    parseJson "\x7b\"video\": \"a.mp4\"\x7d" =
      some (Json.jobj (.ocons "video" (Json.jstr "a.mp4") .onil)) ∧
    lookupKey "video" (.ocons "video" (Json.jstr "a.mp4") .onil) =
      some (Json.jstr "a.mp4") ∧
    check "\x7b\"video\": \"a.mp4\"\x7d" = PyRes.ok (some "\x7b\"video\": \"a.mp4\"\x7d") ∧
    parseJson "\x7b\"id\": 3\x7d" = some (Json.jobj (.ocons "id" (Json.jnum 3) .onil)) ∧
    lookupKey "video" (.ocons "id" (Json.jnum 3) .onil) = none ∧
    check "\x7b\"id\": 3\x7d" = PyRes.exn "KeyError: video" ∧
    check "not json" ≠ PyRes.ok none :=
  ⟨rfl, rfl, check_never_none.2.1 _ _ "a.mp4" rfl rfl,
   rfl, rfl, check_never_none.2.2 _ _ rfl rfl,
   check_never_none.1 "not json"⟩

/-- C6 counterexample: `{"a":1}` is a valid JSON object, but its merged
JSONL line is the re-serialization `{"a": 1}` (Python's default
separators), which does not match the file's content exactly. -/
theorem aggregation_not_verbatim :
    parseJson "\x7b\"a\":1\x7d" = some (Json.jobj (.ocons "a" (Json.jnum 1) .onil)) ∧
    aggregate [("0.json", "\x7b\"a\":1\x7d"), ("1.json", "\x7b\"b\": 2\x7d")] =
      (["\x7b\"a\": 1\x7d", "\x7b\"b\": 2\x7d"], true) ∧
    ("\x7b\"a\": 1\x7d" : String) ≠ "\x7b\"a\":1\x7d" :=
  ⟨rfl, rfl, by decide⟩

/-- C6 (amended): given a shard directory with two files holding valid
JSON objects, the merged JSONL file holds exactly two lines in listdir
order, each the `json.dumps` re-serialization of the corresponding
file's parsed content (hence exactly the file's content whenever that
content is already in canonical `json.dumps` form), and the directory
is removed afterwards. -/
theorem aggregation_two_files (n0 n1 c0 c1 : String) (j0 j1 : Json)
    (h0 : parseJson c0 = some j0) (h1 : parseJson c1 = some j1) :
    aggregate [(n0, c0), (n1, c1)] = ([dumps j0, dumps j1], true) := by
  simp [aggregate, h0, h1]

/-- Witness for C6 (amended) at two canonical-form files: the merged
lines match the files' contents exactly and the directory is removed. -/
theorem aggregation_two_files_witness :
    parseJson "\x7b\"a\": 1\x7d" = some (Json.jobj (.ocons "a" (Json.jnum 1) .onil)) ∧
    parseJson "\x7b\"b\": 2\x7d" = some (Json.jobj (.ocons "b" (Json.jnum 2) .onil)) ∧
    aggregate [("0.json", "\x7b\"a\": 1\x7d"), ("1.json", "\x7b\"b\": 2\x7d")] =
      (["\x7b\"a\": 1\x7d", "\x7b\"b\": 2\x7d"], true) :=
  ⟨rfl, rfl,
   aggregation_two_files "0.json" "1.json" "\x7b\"a\": 1\x7d" "\x7b\"b\": 2\x7d"
     (Json.jobj (.ocons "a" (Json.jnum 1) .onil))
     (Json.jobj (.ocons "b" (Json.jnum 2) .onil)) rfl rfl⟩
